import Mathlib

/-!
Verification of `src/scripts/metal_releases.py` (MetalReleases repository).

This file gives a shallow embedding, in Lean 4, of the parts of the
aggregator script that the specification's claims talk about:

* robots.txt helpers (`fetch_robots`, `allowed_by_robots`, `get_crawl_delay`),
* Cloudflare challenge detection (`detect_cloudflare`) and the retrying
  fetch (`safe_get`, decorated with tenacity
  `retry(stop=stop_after_attempt(3), wait=wait_exponential(min=2, max=8),
  retry=retry_if_exception_type((RequestException, CloudflareDetected)))`),
* the caller-level fallback-User-Agent pattern shared by both adapters
  (`fetch_with_fallback`),
* the Metal-Archives adapter (`parse_metal_archives_upcoming`), including
  its inline date parsing (`datetime.fromisoformat`, then
  `datetime.strptime(.., "%d %b %Y")`),
* the MetalStorm adapter (`parse_metalstorm_pages`) with its page loop and
  its `break`-on-failure behaviour,
* MusicBrainz enrichment (`enrich_musicbrainz`), `write_output`, and `main`.

External collaborators (the network, BeautifulSoup HTML text extraction,
the JSON decoder, `urljoin`, the MusicBrainz client) are passed in as
function parameters, as the spec itself declares them out of scope.
Python strings are modelled as Lean `String`; `str.lower`/`str.strip`
are modelled on ASCII (all data in play is ASCII).  All computation is
done on `String.data` character lists so that every definition reduces
inside the kernel.
-/

namespace MetalReleases

/-! ### Character/string helpers (ASCII models of Python `str` methods) -/

/-- ASCII model of Python `str.lower` on a single character. -/
def lowerChar (c : Char) : Char :=
  if 'A' ≤ c ∧ c ≤ 'Z' then Char.ofNat (c.toNat + 32) else c

/-- ASCII model of Python `str.lower`. -/
def lowerStr (s : String) : String := ⟨s.data.map lowerChar⟩

/-- ASCII whitespace, as stripped by Python `str.strip()`. -/
def isSpaceChar (c : Char) : Bool :=
  c = ' ' ∨ c = '\t' ∨ c = '\n' ∨ c = '\r'

/-- ASCII model of Python `str.strip()`. -/
def trimStr (s : String) : String :=
  ⟨((s.data.dropWhile isSpaceChar).reverse.dropWhile isSpaceChar).reverse⟩

/-- Split a character list on a separator character, keeping empty pieces,
    mirroring Python `str.split(sep)`. -/
def splitOnChar (sep : Char) : List Char → List (List Char)
  | [] => [[]]
  | c :: cs =>
    let r := splitOnChar sep cs
    if c = sep then [] :: r
    else
      match r with
      | [] => [[c]]
      | h :: t => (c :: h) :: t

/-- `leadsWith pat l` is true when `pat` is an initial segment of `l`. -/
def leadsWith : List Char → List Char → Bool
  | [], _ => true
  | _ :: _, [] => false
  | a :: as, b :: bs => a = b && leadsWith as bs

/-- `hasSub pat l` is true when `pat` occurs contiguously inside `l`
    (Python `pat in l`). -/
def hasSub (pat : List Char) : List Char → Bool
  | [] => leadsWith pat []
  | c :: cs => leadsWith pat (c :: cs) || hasSub pat cs

/-- Python `needle in haystack` on strings. -/
def strContainsSub (haystack needle : String) : Bool :=
  hasSub needle.data haystack.data

/-- `true` for a character `'0'`–`'9'`. -/
def isDigitChar (c : Char) : Bool := '0' ≤ c ∧ c ≤ '9'

/-- Parse a nonempty all-digit character list as a natural number. -/
def digitsToNat (l : List Char) : Option Nat :=
  if l ≠ [] ∧ l.all isDigitChar then
    some (l.foldl (fun n c => n * 10 + (c.toNat - 48)) 0)
  else none

/-- The decimal digit character for `n % 10`. -/
def digitChar (n : Nat) : Char := Char.ofNat (48 + n % 10)

/-- Render `n ≤ 99` as two decimal digits (`%02d`). -/
def pad2 (n : Nat) : String := ⟨[digitChar (n / 10), digitChar n]⟩

/-- Render `n ≤ 9999` as four decimal digits (`%04d`). -/
def pad4 (n : Nat) : String :=
  ⟨[digitChar (n / 1000), digitChar (n / 100), digitChar (n / 10), digitChar n]⟩

/-- Python string truthiness for an optional string: `None` and `""` are falsy. -/
def pyFalsyStr : Option String → Bool
  | none => true
  | some s => s.data.isEmpty

/-- Python `a or b` where `a` is an optional string and `b` a string:
    returns `b` when `a` is `None` or empty. -/
def pyOr (a : Option String) (b : String) : String :=
  match a with
  | none => b
  | some s => if s.data.isEmpty then b else s

/-! ### Calendar dates (model of `datetime.date`) -/

/-- A calendar date as produced by Python `datetime.date`. -/
structure Date where
  year : Nat
  month : Nat
  day : Nat
deriving DecidableEq, Repr

/-- Gregorian leap-year rule, as used by `datetime`. -/
def isLeap (y : Nat) : Bool := y % 4 = 0 ∧ (y % 100 ≠ 0 ∨ y % 400 = 0)

/-- Number of days in month `m` of year `y` (months `1`–`12`). -/
def daysInMonth (y m : Nat) : Nat :=
  if m = 2 then (if isLeap y then 29 else 28)
  else if m = 4 ∨ m = 6 ∨ m = 9 ∨ m = 11 then 30
  else 31

/-- The validity check `datetime.date(y, m, d)` performs (it raises
    `ValueError` outside these bounds; `MINYEAR = 1`, `MAXYEAR = 9999`). -/
def mkValidDate (y m d : Nat) : Option Date :=
  if 1 ≤ y ∧ y ≤ 9999 ∧ 1 ≤ m ∧ m ≤ 12 ∧ 1 ≤ d ∧ d ≤ daysInMonth y m then
    some ⟨y, m, d⟩
  else none

/-- `datetime.fromisoformat(s).date()` on the strict `YYYY-MM-DD` date form
    (the only ISO form the aggregator's inputs can take). -/
def parse_isoformat_date (s : String) : Option Date :=
  match splitOnChar '-' s.data with
  | [ys, ms, ds] =>
    if ys.length = 4 ∧ ms.length = 2 ∧ ds.length = 2 then
      match digitsToNat ys, digitsToNat ms, digitsToNat ds with
      | some y, some m, some d => mkValidDate y m d
      | _, _, _ => none
    else none
  | _ => none

/-- CPython `strptime` `%b`: the English month abbreviation, matched
    case-insensitively. -/
def monthFromAbbrev (cs : List Char) : Option Nat :=
  let t : String := ⟨cs.map lowerChar⟩
  if t = "jan" then some 1
  else if t = "feb" then some 2
  else if t = "mar" then some 3
  else if t = "apr" then some 4
  else if t = "may" then some 5
  else if t = "jun" then some 6
  else if t = "jul" then some 7
  else if t = "aug" then some 8
  else if t = "sep" then some 9
  else if t = "oct" then some 10
  else if t = "nov" then some 11
  else if t = "dec" then some 12
  else none

/-- `datetime.strptime(s, "%d %b %Y").date()`: a 1–2 digit day in `1..31`,
    a month abbreviation, an exactly-4-digit year, separated by single
    spaces, validated through `datetime`'s constructor. -/
def parse_d_b_Y (s : String) : Option Date :=
  match splitOnChar ' ' s.data with
  | [ds, bs, ys] =>
    if (ds.length = 1 ∨ ds.length = 2) ∧ ys.length = 4 then
      match digitsToNat ds, monthFromAbbrev bs, digitsToNat ys with
      | some d, some m, some y =>
        if 1 ≤ d ∧ d ≤ 31 then mkValidDate y m d else none
      | _, _, _ => none
    else none
  | _ => none

/-- `date.isoformat()`. -/
def date_isoformat (d : Date) : String :=
  pad4 d.year ++ "-" ++ pad2 d.month ++ "-" ++ pad2 d.day

/-- The inline date parsing in `parse_metal_archives_upcoming`
    (lines 216–223): try `fromisoformat`, else `strptime "%d %b %Y"`,
    else leave `iso = None`.  No `asOfDate` is consulted anywhere. -/
def ma_parse_date (s : String) : Option String :=
  match parse_isoformat_date s with
  | some d => some (date_isoformat d)
  | none => (parse_d_b_Y s).map date_isoformat

/-! ### robots.txt helpers (lines 71–103) -/

/-- The information `urllib.robotparser.RobotFileParser` exposes to this
    script: `crawl_delay` (CPython stores `Crawl-delay` as `int`, so an
    optional integer) and `can_fetch`.  The network read itself is external. -/
structure RobotsPolicy where
  crawlDelay : Option Int
  canFetch : String → Bool

/-- `fetch_robots`: `rp.read()` either succeeds or raises; on any exception
    the function logs a warning and returns `None`. -/
def fetch_robots (res : Except String RobotsPolicy) : Option RobotsPolicy :=
  match res with
  | .ok rp => some rp
  | .error _ => none

/-- `allowed_by_robots`: `True` when there is no parser object, otherwise
    `rp.can_fetch(USER_AGENT, path)` (`True` if that raises). -/
def allowed_by_robots (rp : Option RobotsPolicy) (path : String) : Bool :=
  match rp with
  | none => true
  | some r => r.canFetch path

/-- `get_crawl_delay`: `3` when there is no parser object or no declared
    delay, otherwise `max(3, int(delay))`. -/
def get_crawl_delay (rp : Option RobotsPolicy) : Int :=
  match rp with
  | none => 3
  | some r =>
    match r.crawlDelay with
    | none => 3
    | some d => max 3 d

/-! ### Cloudflare detection and the retrying fetch (lines 109–143) -/

/-- The fixed marker set of `detect_cloudflare`. -/
def challengeMarkers : List String :=
  ["please enable javascript", "cf-chl-bypass", "captcha", "attention required"]

/-- `detect_cloudflare(text, status)`: `True` for status 403 or 429, else
    `True` when the lowercased body contains one of the markers. -/
def detect_cloudflare (text : String) (status : Nat) : Bool :=
  if status = 403 ∨ status = 429 then true
  else challengeMarkers.any (fun x => strContainsSub (lowerStr text) x)

/-- One network attempt as seen by `requests.get`: either a response with a
    status and decoded body, or a transport-level `RequestException`. -/
inductive HttpOutcome where
  | resp (status : Nat) (text : String)
  | netError
deriving DecidableEq

/-- The Python exceptions that can leave `safe_get`'s body or wrapper:
    `CloudflareDetected`, `requests.RequestException` (including the
    `raise_for_status` `HTTPError`), and tenacity's `RetryError`, which
    wraps the last attempt's exception when `stop_after_attempt` is
    exhausted (the decorator is not given `reraise=True`). -/
inductive PyExc where
  | cloudflareDetected (status : Nat)
  | requestException
  | retryError (last : PyExc)
deriving DecidableEq

/-- One body execution of `safe_get`: raise `CloudflareDetected` on a
    challenge, raise (`raise_for_status`) on a non-challenge status ≥ 400,
    otherwise return the body. -/
def classify (o : HttpOutcome) : Except PyExc String :=
  match o with
  | .netError => .error .requestException
  | .resp status text =>
    if detect_cloudflare text status then .error (.cloudflareDetected status)
    else if 400 ≤ status then .error .requestException
    else .ok text

/-- tenacity `wait_exponential(min=2, max=8)` after failed attempt `n`
    (1-based): `max(min, min(multiplier * 2 ^ n, max))` with multiplier 1. -/
def wait_exponential_2_8 (n : Nat) : Nat := max 2 (min (2 ^ n) 8)

/-- `safe_get` under its tenacity decorator, driven by the outcome of each
    attempt: up to 3 total attempts (`stop_after_attempt(3)`); both
    `RequestException` and `CloudflareDetected` are retryable, so when the
    third attempt also fails tenacity raises `RetryError(last)` — it never
    re-raises the underlying exception itself. -/
def safe_get (attempts : Nat → HttpOutcome) : Except PyExc String :=
  match classify (attempts 1) with
  | .ok t => .ok t
  | .error _ =>
    match classify (attempts 2) with
    | .ok t => .ok t
    | .error _ =>
      match classify (attempts 3) with
      | .ok t => .ok t
      | .error e => .error (.retryError e)

/-- The caller-level pattern both adapters use around `safe_get`
    (lines 177–189 and 256–267): `try: safe_get(primary)`;
    `except CloudflareDetected:` retry once with the fallback User-Agent;
    `except Exception:` give up.  Returns the body (if any) and whether the
    fallback identity was actually used. -/
def fetch_with_fallback (primary fallback : Nat → HttpOutcome) : Option String × Bool :=
  match safe_get primary with
  | .ok t => (some t, false)
  | .error (.cloudflareDetected _) =>
    (match safe_get fallback with
     | .ok t => (some t, true)
     | .error _ => (none, true))
  | .error _ => (none, false)

/-! ### Release records and the Metal-Archives adapter (lines 149–234) -/

/-- The best-effort MusicBrainz enrichment payload (`{"mbid", "date"}`). -/
structure MBInfo where
  mbid : Option String
  date : Option String
deriving DecidableEq

/-- One emitted release dictionary.  Metal-Archives always fills `artist`
    and `title` with strings; MetalStorm may leave them `None`, hence
    `Option String`.  `enriched` is added by `main` when the MusicBrainz
    lookup succeeds. -/
structure Release where
  source : String
  id : String
  artist : Option String
  title : Option String
  date : Option String
  url : Option String
  enriched : Option MBInfo := none
deriving DecidableEq

/-- The spec's normalized identity key for deduplication:
    `(lowercase(trim(title)), lowercase(trim(artist)))`. -/
def normKey (r : Release) : String × String :=
  (lowerStr (trimStr (r.title.getD "")), lowerStr (trimStr (r.artist.getD "")))

/-- One `aaData` row of the Metal-Archives loop (lines 203–232): rows with
    fewer than 3 fields are skipped; otherwise the date text, artist HTML
    and album HTML are taken from the first three fields.  `getText` models
    `BeautifulSoup(..).get_text(strip=True)` and `getLink` models finding
    the first `<a>` href in the album HTML (both external HTML concerns). -/
def ma_row_to_release (getText : String → String) (getLink : String → Option String)
    (row : List String) : Option Release :=
  match row with
  | dateText :: artistHtml :: albumHtml :: _ =>
    let artist := getText artistHtml
    let album := getText albumHtml
    let link := getLink albumHtml
    some
      { source := "metal-archives"
        id := "ma:" ++ pyOr link (artist ++ "|" ++ album ++ "|" ++ dateText)
        artist := some artist
        title := some album
        date := ma_parse_date dateText
        url := link }
  | _ => none

/-- The Metal-Archives row loop: one record appended per well-formed row. -/
def parse_ma_rows (getText : String → String) (getLink : String → Option String)
    (rows : List (List String)) : List Release :=
  rows.filterMap (ma_row_to_release getText getLink)

/-- The Metal-Archives request path. -/
def maPath : String := "/release/ajax-upcoming/json/1"

/-- The Metal-Archives adapter after the robots gate: fetch with the
    primary/fallback User-Agent pattern, decode the JSON body into its
    `aaData` rows (`decodeRows` models `r.json()` + `data.get("aaData", [])`;
    `none` is an invalid-JSON body, which returns `[]`), then run the row
    loop. -/
def ma_after_fetch (primary fallback : Nat → HttpOutcome)
    (decodeRows : String → Option (List (List String)))
    (getText : String → String) (getLink : String → Option String) : List Release :=
  match (fetch_with_fallback primary fallback).1 with
  | none => []
  | some body =>
    match decodeRows body with
    | none => []
    | some rows => parse_ma_rows getText getLink rows

/-- `parse_metal_archives_upcoming` (lines 149–234): skip the source when
    robots.txt disallows the path, otherwise fetch and parse. -/
def parse_metal_archives_upcoming (robots : Option RobotsPolicy)
    (primary fallback : Nat → HttpOutcome)
    (decodeRows : String → Option (List (List String)))
    (getText : String → String) (getLink : String → Option String) : List Release :=
  if allowed_by_robots robots maPath then
    ma_after_fetch primary fallback decodeRows getText getLink
  else []

/-! ### The MetalStorm adapter (lines 240–310) -/

/-- The `.release-title a` element of a `.release` item: its text and its
    optional `href` attribute. -/
structure MSTitleEl where
  text : String
  href : Option String
deriving DecidableEq

/-- One `.release` item after BeautifulSoup extraction: the title element
    (if present), and the text of the artist and date elements (if present). -/
structure MSItem where
  titleEl : Option MSTitleEl
  artistText : Option String
  dateText : Option String
deriving DecidableEq

/-- Lines 273–290: assemble the record for one `.release` item.  The `href`
    is used only when the title element exists and the attribute is truthy
    (Python `title_el and title_el.get('href')`).  The date text is stored
    raw, unparsed.  `uj` models `urljoin(base, href)`. -/
def ms_item_to_release (uj : String → String) (it : MSItem) : Release :=
  let title := it.titleEl.map MSTitleEl.text
  let href :=
    match it.titleEl with
    | some te =>
      match te.href with
      | some h => if h.data.isEmpty then none else some h
      | none => none
    | none => none
  { source := "metalstorm"
    id := "ms:" ++
      (match href with
       | some h => h
       | none => (it.artistText.getD "") ++ "|" ++ (title.getD ""))
    artist := it.artistText
    title := title
    date := it.dateText
    url := href.map uj }

/-- Lines 293–307: the fallback extraction over `table tr` rows — rows with
    at least 3 `td` cells become records, again with the raw date text. -/
def ms_table_row_to_release (tds : List String) : Option Release :=
  match tds with
  | a :: t :: d :: _ =>
    some
      { source := "metalstorm"
        id := "ms:" ++ a ++ "|" ++ t ++ "|" ++ d
        artist := some a
        title := some t
        date := some d
        url := none }
  | _ => none

/-- What BeautifulSoup extracts from one MetalStorm page body: the
    `.release` items and the `table tr` rows (each a list of `td` texts). -/
structure MSPage where
  releaseItems : List MSItem
  tableRows : List (List String)

/-- One page of the MetalStorm loop: use the `.release` items when any were
    found, otherwise fall back to the table rows. -/
def parse_ms_page (uj : String → String) (pg : MSPage) : List Release :=
  if pg.releaseItems.isEmpty then pg.tableRows.filterMap ms_table_row_to_release
  else pg.releaseItems.map (ms_item_to_release uj)

/-- The `for p in range(1, pages + 1)` loop of `parse_metalstorm_pages`,
    with `p` the current page number and the second argument the number of
    pages left.  A fetch failure (`fetchPage p = none`) executes `break`:
    the already-accumulated results are returned and no further page is
    visited. -/
def msLoop (uj : String → String) (extract : String → MSPage)
    (fetchPage : Nat → Option String) : Nat → Nat → List Release
  | _, 0 => []
  | p, rem + 1 =>
    match fetchPage p with
    | none => []
    | some body => parse_ms_page uj (extract body) ++ msLoop uj extract fetchPage (p + 1) rem

/-- `parse_metalstorm_pages` after its robots gate: pages `1..pages`, each
    fetched with the primary/fallback pattern, each body handed to
    BeautifulSoup (`extract`) and parsed. -/
def parse_metalstorm_pages (uj : String → String) (extract : String → MSPage)
    (primary fallback : Nat → Nat → HttpOutcome) (pages : Nat) : List Release :=
  msLoop uj extract (fun p => (fetch_with_fallback (primary p) (fallback p)).1) 1 pages

/-! ### Enrichment, output and `main` (lines 316–368) -/

/-- `enrich_musicbrainz` (lines 316–326): skip records with a falsy artist
    or title; otherwise query MusicBrainz (`lookup`, external network —
    `none` covers both an empty result list and a raised exception). -/
def enrich_musicbrainz (lookup : String → String → Option MBInfo)
    (it : Release) : Option MBInfo :=
  if pyFalsyStr it.artist || pyFalsyStr it.title then none
  else lookup (it.artist.getD "") (it.title.getD "")

/-- The enrichment pass of `main` on one record: attach the lookup result
    when there is one, leave the record unchanged otherwise. -/
def enrichStep (lookup : String → String → Option MBInfo) (it : Release) : Release :=
  match enrich_musicbrainz lookup it with
  | some mb => { it with enriched := some mb }
  | none => it

/-- The snapshot payload of `write_output` (lines 332–340). -/
structure Snapshot where
  generated_at : String
  count : Nat
  releases : List Release

/-- `write_output(releases)`: the payload written to `snapshot.json`. -/
def write_output (now : String) (releases : List Release) : Snapshot :=
  { generated_at := now, count := releases.length, releases := releases }

/-- `main` (lines 346–368): concatenate the two source results, enrich each
    record best-effort, and write the snapshot.  There is no deduplication,
    no date filtering and no sorting between accumulation and output. -/
def main (lookup : String → String → Option MBInfo)
    (ma ms : List Release) (now : String) : Snapshot :=
  write_output now ((ma ++ ms).map (enrichStep lookup))

/-! ### Helper lemmas -/

/-- Enrichment never changes the date field. -/
theorem enrichStep_date (lookup : String → String → Option MBInfo) (it : Release) :
    (enrichStep lookup it).date = it.date := by
  unfold enrichStep
  cases enrich_musicbrainz lookup it <;> rfl

/-- Enrichment never changes the artist field. -/
theorem enrichStep_artist (lookup : String → String → Option MBInfo) (it : Release) :
    (enrichStep lookup it).artist = it.artist := by
  unfold enrichStep
  cases enrich_musicbrainz lookup it <;> rfl

/-- Enrichment never changes the title field. -/
theorem enrichStep_title (lookup : String → String → Option MBInfo) (it : Release) :
    (enrichStep lookup it).title = it.title := by
  unfold enrichStep
  cases enrich_musicbrainz lookup it <;> rfl

/-- Enrichment never changes the normalized identity key. -/
theorem normKey_enrichStep (lookup : String → String → Option MBInfo) (it : Release) :
    normKey (enrichStep lookup it) = normKey it := by
  unfold normKey
  rw [enrichStep_title, enrichStep_artist]

/-- tenacity wraps every retry exhaustion in `RetryError`, so `safe_get`
    can never surface a bare `CloudflareDetected` to its caller. -/
theorem safe_get_no_bare_cloudflare (attempts : Nat → HttpOutcome) (s : Nat) :
    safe_get attempts ≠ Except.error (PyExc.cloudflareDetected s) := by
  unfold safe_get
  cases classify (attempts 1) <;> cases classify (attempts 2) <;>
    cases classify (attempts 3) <;> simp

/-- If the current page's fetch fails, the loop returns `[]` whatever fuel
    is left. -/
theorem msLoop_fail_head (uj : String → String) (extract : String → MSPage)
    (fetchPage : Nat → Option String) (p : Nat) (h : fetchPage p = none) :
    ∀ n, msLoop uj extract fetchPage p n = [] := by
  intro n
  cases n with
  | zero => rfl
  | succ m => simp [msLoop, h]

/-- When the fetch of page `k` fails, running the loop with any amount of
    fuel is the same as running it with fuel truncated at page `k`: every
    page before `k` contributes as before and nothing at or after `k`
    contributes. -/
theorem msLoop_trunc (uj : String → String) (extract : String → MSPage)
    (fetchPage : Nat → Option String) (k : Nat) (hk : fetchPage k = none) :
    ∀ rem p, p ≤ k →
      msLoop uj extract fetchPage p rem = msLoop uj extract fetchPage p (min rem (k - p)) := by
  intro rem
  induction rem with
  | zero => intro p _; simp
  | succ m ih =>
    intro p hp
    by_cases hpk : p = k
    · subst hpk
      rw [msLoop_fail_head uj extract fetchPage p hk, Nat.sub_self, Nat.min_zero]
      rfl
    · have hlt : p < k := lt_of_le_of_ne hp hpk
      cases hfp : fetchPage p with
      | none => rw [msLoop_fail_head uj extract fetchPage p hfp,
                    msLoop_fail_head uj extract fetchPage p hfp]
      | some body =>
        have hmin : min (m + 1) (k - p) = min m (k - (p + 1)) + 1 := by omega
        rw [hmin]
        simp only [msLoop, hfp]
        rw [ih (p + 1) (by omega)]

/-! ### Claim theorems -/

/-- C4: for every site crawling policy, `get_crawl_delay` clamps the
    minimum delay to a floor of 3 seconds: with no parser object, no
    declared delay, or a declared delay below 3 the result is 3, and with a
    declared delay `d ≥ 3` the result is `d`. -/
theorem crawl_delay_floor (rp : Option RobotsPolicy) :
    (rp = none → get_crawl_delay rp = 3) ∧
    (∀ r, rp = some r → r.crawlDelay = none → get_crawl_delay rp = 3) ∧
    (∀ r d, rp = some r → r.crawlDelay = some d → d < 3 → get_crawl_delay rp = 3) ∧
    (∀ r d, rp = some r → r.crawlDelay = some d → 3 ≤ d → get_crawl_delay rp = d) := by
  refine ⟨?_, ?_, ?_, ?_⟩
  · intro h; subst h; rfl
  · intro r h hd; subst h; simp [get_crawl_delay, hd]
  · intro r d h hd hlt; subst h; simp [get_crawl_delay, hd]
    exact le_of_lt hlt
  · intro r d h hd hle; subst h; simp [get_crawl_delay, hd]
    exact hle

/-- Witness for `crawl_delay_floor` at concrete policies: absent parser,
    absent delay, declared delay 1, declared delay 7. -/
theorem crawl_delay_floor_witness :
    get_crawl_delay none = 3 ∧
    get_crawl_delay (some { crawlDelay := none, canFetch := fun _ => true }) = 3 ∧
    get_crawl_delay (some { crawlDelay := some 1, canFetch := fun _ => true }) = 3 ∧
    get_crawl_delay (some { crawlDelay := some 7, canFetch := fun _ => true }) = 7 := by
  refine ⟨(crawl_delay_floor none).1 rfl, ?_, ?_, ?_⟩
  · exact (crawl_delay_floor _).2.1 _ rfl rfl
  · exact (crawl_delay_floor _).2.2.1 _ 1 rfl rfl (by norm_num)
  · exact (crawl_delay_floor _).2.2.2 _ 7 rfl rfl (by norm_num)

/-- C5: when reading the robots policy fails, the gate fails open —
    `fetch_robots` swallows the error and returns `none`, every path is
    then allowed, the delay is 3 seconds, and the Metal-Archives adapter
    proceeds with its fetch exactly as if the gate had allowed it (the run
    is not blocked or aborted). -/
theorem robots_fail_open (e : String) (path : String)
    (primary fallback : Nat → HttpOutcome)
    (decodeRows : String → Option (List (List String)))
    (getText : String → String) (getLink : String → Option String) :
    fetch_robots (Except.error e) = none ∧
    allowed_by_robots (fetch_robots (Except.error e)) path = true ∧
    get_crawl_delay (fetch_robots (Except.error e)) = 3 ∧
    parse_metal_archives_upcoming (fetch_robots (Except.error e))
        primary fallback decodeRows getText getLink
      = ma_after_fetch primary fallback decodeRows getText getLink := by
  refine ⟨rfl, rfl, rfl, ?_⟩
  simp [parse_metal_archives_upcoming, fetch_robots, allowed_by_robots]

/-- C6: `detect_cloudflare` classifies a response as a challenge iff its
    status is 403 or 429, or the lowercased body contains one of the fixed
    markers; the marker check applies to any non-403/429 status, in
    particular to a 200 response, as the concrete evaluation shows. -/
theorem detect_cloudflare_classification (text : String) (status : Nat) :
    (detect_cloudflare text status = true ↔
      status = 403 ∨ status = 429 ∨
        ∃ m ∈ challengeMarkers, strContainsSub (lowerStr text) m = true) ∧
    detect_cloudflare "Checking your browser: Please Enable JavaScript and retry" 200 = true := by
  constructor
  · unfold detect_cloudflare
    by_cases h : status = 403 ∨ status = 429
    · simp only [if_pos h]
      constructor
      · intro _
        rcases h with h | h
        · exact Or.inl h
        · exact Or.inr (Or.inl h)
      · intro _; trivial
    · simp only [if_neg h, List.any_eq_true]
      push_neg at h
      constructor
      · intro hm
        exact Or.inr (Or.inr hm)
      · rintro (h1 | h2 | hm)
        · exact absurd h1 h.1
        · exact absurd h2 h.2
        · exact hm
  · decide

/-- C7 (code bug): after three challenge attempts with the primary
    User-Agent, tenacity raises `RetryError` — never a bare
    `CloudflareDetected` — so the caller's `except CloudflareDetected`
    branch is unreachable and the fallback User-Agent is never used: at the
    failing input (every attempt answered with HTTP 403) the caller returns
    no body with `usedFallback = false` for every fallback behaviour.  The
    backoff itself does match the claim: waits of 2s then 4s, always within
    [2, 8]. -/
theorem fallback_identity_unreachable :
    (∀ attempts s, safe_get attempts ≠ Except.error (PyExc.cloudflareDetected s)) ∧
    safe_get (fun _ => HttpOutcome.resp 403 "")
      = Except.error (PyExc.retryError (PyExc.cloudflareDetected 403)) ∧
    (∀ fallback, fetch_with_fallback (fun _ => HttpOutcome.resp 403 "") fallback
      = (none, false)) ∧
    wait_exponential_2_8 1 = 2 ∧ wait_exponential_2_8 2 = 4 ∧
    (∀ n, 2 ≤ wait_exponential_2_8 n ∧ wait_exponential_2_8 n ≤ 8) := by
  refine ⟨safe_get_no_bare_cloudflare, rfl, fun fallback => rfl, by decide, by decide, ?_⟩
  intro n
  unfold wait_exponential_2_8
  constructor
  · exact Nat.le_max_left 2 _
  · have h := Nat.min_le_right (2 ^ n) 8
    omega

/-- Unfolding of the Metal-Archives row conversion on a well-formed row. -/
theorem ma_row_to_release_cons (getText : String → String) (getLink : String → Option String)
    (dt a b : String) (rest : List String) :
    ma_row_to_release getText getLink (dt :: a :: b :: rest)
      = some
        { source := "metal-archives"
          id := "ma:" ++ pyOr (getLink b) (getText a ++ "|" ++ getText b ++ "|" ++ dt)
          artist := some (getText a)
          title := some (getText b)
          date := ma_parse_date dt
          url := getLink b } := rfl

/-- Lexicographic order on character lists by code point; on `YYYY-MM-DD`
    strings this is chronological order of the dates. -/
def isoStrLt : List Char → List Char → Bool
  | [], [] => false
  | [], _ :: _ => true
  | _ :: _, [] => false
  | a :: as, b :: bs => if a = b then isoStrLt as bs else decide (a.toNat < b.toNat)

/-- Two Metal-Archives rows whose artists and titles differ only in letter
    case. -/
def c1Rows : List (List String) :=
  [["2024-03-15", "Oak", "Blackwater"], ["2024-03-15", "oak", "BLACKWATER"]]

/-- Two Metal-Archives rows with in-order (ascending, not descending) dates
    more than four years apart. -/
def c8Rows : List (List String) :=
  [["1 Jan 2020", "A", "X"], ["1 May 2024", "B", "Y"]]

/-- Page-indexed attempt outcomes where page 1 is always answered with
    HTTP 403 and every later page succeeds. -/
def c9prim : Nat → Nat → HttpOutcome := fun p _ =>
  if p = 1 then HttpOutcome.resp 403 "" else HttpOutcome.resp 200 "ok"

/-- A MetalStorm `.release` item. -/
def c9item : MSItem :=
  { titleEl := some { text := "T", href := none }
    artistText := some "A"
    dateText := some "2024-05-01" }

/-- BeautifulSoup extraction that finds one `.release` item on every page. -/
def c9extract : String → MSPage := fun _ => { releaseItems := [c9item], tableRows := [] }

/-- C1 (counterexample): the claim that the snapshot contains exactly one
    record per normalized identity key fails — two candidates whose titles
    and artists differ only in letter case produce two snapshot records
    sharing the key `("blackwater", "oak")`. -/
theorem case_variant_candidates_not_collapsed :
    ((main (fun _ _ => none) (parse_ma_rows (fun s => s) (fun _ => none) c1Rows) [] "t").releases.map
        normKey)
      = [("blackwater", "oak"), ("blackwater", "oak")] ∧
    (main (fun _ _ => none) (parse_ma_rows (fun s => s) (fun _ => none) c1Rows) [] "t").count = 2 := by
  exact ⟨by decide, by decide⟩

/-- C1 (amended): the emitted snapshot contains exactly one record per raw
    candidate — `main` concatenates the source results and enrichment
    preserves every record and its identity fields, so no collapsing by
    normalized key (or by anything else) happens. -/
theorem snapshot_one_record_per_candidate (lookup : String → String → Option MBInfo)
    (ma ms : List Release) (now : String) :
    (main lookup ma ms now).releases.length = ma.length + ms.length ∧
    (main lookup ma ms now).releases.map normKey = (ma ++ ms).map normKey := by
  constructor
  · simp [main, write_output]
  · simp only [main, write_output, List.map_map]
    refine List.map_congr_left ?_
    intro a _
    exact normKey_enrichStep lookup a

/-- C2 (counterexample): the claimed year inference never happens — the
    date texts `"Dec 20"` and `"Jan 3"`, which lack a year, normalize to
    `none`, not to `2023-12-20` resp. `2025-01-03` as the claim requires
    for `asOfDate` 2024-01-05 resp. 2024-12-20. -/
theorem yearless_dates_counterexample :
    ma_parse_date "Dec 20" = none ∧ ma_parse_date "Jan 3" = none ∧
    ¬ ma_parse_date "Dec 20" = some "2023-12-20" ∧
    ¬ ma_parse_date "Jan 3" = some "2025-01-03" := by
  decide

/-- C2 (amended): date normalization has no year-defaulting rule at all: it
    accepts only strict ISO dates or `"<day> <month-abbrev> <4-digit-year>"`,
    and any text that is neither three `-`-separated fields nor three
    space-separated words — in particular any `"Dec 20"`-style year-less
    text — yields `none`, independent of any `asOfDate`. -/
theorem yearless_dates_yield_null (t : String)
    (h1 : (splitOnChar '-' t.data).length ≠ 3)
    (h2 : (splitOnChar ' ' t.data).length ≠ 3) :
    ma_parse_date t = none := by
  have hiso : parse_isoformat_date t = none := by
    unfold parse_isoformat_date
    split
    · rename_i heq
      exact absurd (by rw [heq]; rfl) h1
    · rfl
  have hdby : parse_d_b_Y t = none := by
    unfold parse_d_b_Y
    split
    · rename_i heq
      exact absurd (by rw [heq]; rfl) h2
    · rfl
  simp [ma_parse_date, hiso, hdby]

/-- Witness for `yearless_dates_yield_null` at the spec's two examples. -/
theorem yearless_dates_yield_null_witness :
    ma_parse_date "Dec 20" = none ∧ ma_parse_date "Jan 3" = none :=
  ⟨yearless_dates_yield_null "Dec 20" (by decide) (by decide),
   yearless_dates_yield_null "Jan 3" (by decide) (by decide)⟩

/-- C3 (counterexample): the Metal-Archives adapter does not leave the raw
    date text unparsed — on the row `["15 Mar 2024", "A", "B"]` it emits
    the parsed ISO date `"2024-03-15"`, not the raw text. -/
theorem ma_adapter_parses_dates_itself :
    ma_row_to_release (fun s => s) (fun _ => none) ["15 Mar 2024", "A", "B"]
      = some
        { source := "metal-archives"
          id := "ma:A|B|15 Mar 2024"
          artist := some "A"
          title := some "B"
          date := some "2024-03-15"
          url := none } ∧
    ¬ (some "2024-03-15" : Option String) = some "15 Mar 2024" := by
  exact ⟨by decide, by decide⟩

/-- C3 (amended): the MetalStorm adapter does emit its date text raw and
    unparsed (both in the `.release`-item branch and in the table-row
    fallback branch), but the Metal-Archives adapter parses dates inline:
    its emitted date field is `ma_parse_date` of the raw text, so date
    parsing is not centralized outside the adapters. -/
theorem adapter_date_emission (uj : String → String) (it : MSItem)
    (x y z : String) (zs : List String)
    (getText : String → String) (getLink : String → Option String)
    (dt a b : String) (rest : List String) :
    (ms_item_to_release uj it).date = it.dateText ∧
    (∃ r, ms_table_row_to_release (x :: y :: z :: zs) = some r ∧ r.date = some z) ∧
    (∃ r, ma_row_to_release getText getLink (dt :: a :: b :: rest) = some r ∧
       r.date = ma_parse_date dt) :=
  ⟨rfl, ⟨_, rfl, rfl⟩, ⟨_, rfl, rfl⟩⟩

/-- C8 (counterexample): the records handed to output are neither filtered
    to a date window nor sorted by `releaseDate` descending: two rows dated
    2020-01-01 and 2024-05-01 (more than four years apart, so never both
    inside the two-month request window) are handed to the output in
    ascending order. -/
theorem output_not_sorted_counterexample :
    ((main (fun _ _ => none) (parse_ma_rows (fun s => s) (fun _ => none) c8Rows) [] "t").releases.map
        Release.date)
      = [some "2020-01-01", some "2024-05-01"] ∧
    isoStrLt "2020-01-01".data "2024-05-01".data = true := by
  exact ⟨by decide, by decide⟩

/-- C8 (amended): after the sources are exhausted, the records handed to
    output are exactly the accumulated candidates in fetch order —
    Metal-Archives results followed by MetalStorm results, every record
    kept with its date unchanged, with no date-window filtering and no
    sorting. -/
theorem output_unfiltered_unsorted (lookup : String → String → Option MBInfo)
    (ma ms : List Release) (now : String) :
    (main lookup ma ms now).releases.map Release.date = (ma ++ ms).map Release.date ∧
    (main lookup ma ms now).count = ma.length + ms.length := by
  constructor
  · simp only [main, write_output, List.map_map]
    refine List.map_congr_left ?_
    intro a _
    exact enrichStep_date lookup a
  · simp [main, write_output]

/-- C9 (counterexample): a fetch failure on one MetalStorm page does not
    abandon only that page — with page 1 answered by HTTP 403 on every
    attempt and every later page succeeding with a parsable item, the
    adapter returns nothing at all, although page 2's body alone parses to
    one record. -/
theorem page_failure_abandons_siblings :
    parse_metalstorm_pages (fun s => s) c9extract c9prim c9prim 4 = [] ∧
    (parse_ms_page (fun s => s) (c9extract "ok")).length = 1 := by
  exact ⟨rfl, rfl⟩

/-- C9 (amended): a fetch failure on MetalStorm page `k` executes `break`:
    it abandons that page and every later page of the MetalStorm source
    (the run behaves as if only pages `1..k-1` had been requested, keeping
    the earlier pages' results), while the other source and the overall run
    are unaffected — `main` still writes a snapshot containing the other
    source's records plus the retained pages' records. -/
theorem ms_failure_truncates_pages (uj : String → String) (extract : String → MSPage)
    (primary fallback : Nat → Nat → HttpOutcome) (pages k : Nat)
    (lookup : String → String → Option MBInfo) (ma : List Release) (now : String)
    (h1 : 1 ≤ k) (h2 : k ≤ pages)
    (h3 : (fetch_with_fallback (primary k) (fallback k)).1 = none) :
    parse_metalstorm_pages uj extract primary fallback pages
      = parse_metalstorm_pages uj extract primary fallback (k - 1) ∧
    (main lookup ma (parse_metalstorm_pages uj extract primary fallback pages) now).count
      = ma.length + (parse_metalstorm_pages uj extract primary fallback (k - 1)).length := by
  have base := msLoop_trunc uj extract
      (fun p => (fetch_with_fallback (primary p) (fallback p)).1) k h3 pages 1 h1
  have hmin : min pages (k - 1) = k - 1 := by omega
  have hmain : parse_metalstorm_pages uj extract primary fallback pages
      = parse_metalstorm_pages uj extract primary fallback (k - 1) := by
    unfold parse_metalstorm_pages
    rw [base, hmin]
  refine ⟨hmain, ?_⟩
  rw [hmain]
  simp [main, write_output]

/-- Witness for `ms_failure_truncates_pages`: page 1 blocked by HTTP 403 on
    every attempt truncates the 4-page run to a 0-page run. -/
theorem ms_failure_truncates_pages_witness :
    parse_metalstorm_pages (fun s => s) c9extract c9prim c9prim 4
      = parse_metalstorm_pages (fun s => s) c9extract c9prim c9prim 0 ∧
    (main (fun _ _ => none) []
        (parse_metalstorm_pages (fun s => s) c9extract c9prim c9prim 4) "t").count
      = ([] : List Release).length
        + (parse_metalstorm_pages (fun s => s) c9extract c9prim c9prim 0).length :=
  ms_failure_truncates_pages (fun s => s) c9extract c9prim c9prim 4 1
    (fun _ _ => none) [] "t" (by decide) (by decide) (by decide)

/-- C10: a Metal-Archives row whose date text parses neither as strict ISO
    nor as `"<day> <month-abbrev> <year>"` is still emitted, with its date
    field `none`, and still appears in the snapshot written by `main`
    (whatever the surrounding rows, the other source's records and the
    enrichment behaviour). -/
theorem unparsable_date_row_still_emitted (getText : String → String)
    (getLink : String → Option String) (dt a b : String) (rest : List String)
    (pre post : List (List String)) (lookup : String → String → Option MBInfo)
    (ms : List Release) (now : String) (h : ma_parse_date dt = none) :
    (∃ r, ma_row_to_release getText getLink (dt :: a :: b :: rest) = some r ∧ r.date = none) ∧
    (∃ r, r ∈ (main lookup
          (parse_ma_rows getText getLink (pre ++ (dt :: a :: b :: rest) :: post)) ms now).releases ∧
       r.date = none ∧ r.artist = some (getText a) ∧ r.title = some (getText b)) := by
  constructor
  · exact ⟨_, ma_row_to_release_cons getText getLink dt a b rest, h⟩
  · refine ⟨enrichStep lookup
      { source := "metal-archives"
        id := "ma:" ++ pyOr (getLink b) (getText a ++ "|" ++ getText b ++ "|" ++ dt)
        artist := some (getText a)
        title := some (getText b)
        date := ma_parse_date dt
        url := getLink b }, ?_, ?_, ?_, ?_⟩
    · exact List.mem_map_of_mem _ (List.mem_append_left _
        (List.mem_filterMap.mpr ⟨_, by simp, ma_row_to_release_cons getText getLink dt a b rest⟩))
    · rw [enrichStep_date]; exact h
    · rw [enrichStep_artist]
    · rw [enrichStep_title]

/-- Witness for `unparsable_date_row_still_emitted` at the unparsable date
    text `"TBA"`. -/
theorem unparsable_date_row_still_emitted_witness :
    (∃ r, ma_row_to_release (fun s => s) (fun _ => none) ["TBA", "A", "B"] = some r ∧
       r.date = none) ∧
    (∃ r, r ∈ (main (fun _ _ => none)
          (parse_ma_rows (fun s => s) (fun _ => none) [["TBA", "A", "B"]]) [] "t").releases ∧
       r.date = none ∧ r.artist = some "A" ∧ r.title = some "B") :=
  unparsable_date_row_still_emitted (fun s => s) (fun _ => none) "TBA" "A" "B" [] [] []
    (fun _ _ => none) [] "t" (by decide)

end MetalReleases
